import Mathlib

/-!
Verification of the skrape.ai Python SDK client layer (skrape/client.py and
skrape/errors.py), shallowly embedded in Lean 4.

The embedding models:
* JSON values as an inductive type (`JsonValue`);
* Python exceptions relevant to the client as an inductive error type
  (`PyError`), distinguishing the SDK errors from httpx errors, pydantic
  validation errors and the builtin ValueError/TypeError;
* `Skrape._handle_response` as a pure function from an HTTP response to
  `Except PyError JsonValue`, including Python membership/subscript semantics
  (the `in` operator and `data["result"]`) and `int()` parsing of the
  Retry-After header;
* pydantic `model_validate` for `JobResponse` / `MarkdownResponse` at the
  level of required-field and basic-type checking (pydantic lax numeric-string
  coercions are elided; no property below exercises them);
* the response processing of each client method (the try/except body after the
  transport call returns), and its request building and session lifecycle.

Error-message text that is produced by external libraries (httpx status
errors, json decode errors, pydantic messages) is modelled abstractly: the
constructor identifies the exception class, the string payload models str(e).
-/

namespace SkrapeSDK

/-- A parsed JSON value, as returned by response.json(). Python dicts are
association lists (first binding wins for lookup, which agrees with Python
on duplicate-free dicts, the only ones JSON parsing produces). -/
inductive JsonValue where
  | null
  | bool (b : Bool)
  | num (n : Int)
  | str (s : String)
  | arr (elems : List JsonValue)
  | obj (fields : List (String × JsonValue))

/-- Python-level exceptions that can escape the client methods. The first two
are the two SDK classes from skrape/errors.py; httpStatusError, connectError
and timeoutError are the httpx.HTTPError subclasses the except clauses catch;
the rest are library/builtin exceptions the except clauses do not catch. -/
inductive PyError where
  | skrapeAPIError (msg : String)
  | skrapeValidationError (msg : String)
  | httpStatusError (status : Nat) (msg : String)
  | connectError (msg : String)
  | timeoutError (msg : String)
  | jsonDecodeError (msg : String)
  | pydanticValidationError (msg : String)
  | valueError (msg : String)
  | typeError (msg : String)
  | keyError (key : String)
  deriving DecidableEq

/-- isinstance(e, httpx.HTTPError): status errors and transport-level
connection/timeout failures are httpx.HTTPError subclasses; the SDK errors,
json.JSONDecodeError, pydantic.ValidationError, ValueError, TypeError and
KeyError are not. -/
def PyError.isHttpxError : PyError → Bool
  | .httpStatusError _ _ => true
  | .connectError _ => true
  | .timeoutError _ => true
  | _ => false

/-- str(e): the human-readable text of the exception. -/
def PyError.pyStr : PyError → String
  | .skrapeAPIError m => m
  | .skrapeValidationError m => m
  | .httpStatusError _ m => m
  | .connectError m => m
  | .timeoutError m => m
  | .jsonDecodeError m => m
  | .pydanticValidationError m => m
  | .valueError m => m
  | .typeError m => m
  | .keyError k => k

/-- isinstance(e, SkrapeAPIError). -/
def PyError.isSkrapeAPIError : PyError → Bool
  | .skrapeAPIError _ => true
  | _ => false

/-- isinstance(e, SkrapeValidationError). -/
def PyError.isSkrapeValidationError : PyError → Bool
  | .skrapeValidationError _ => true
  | _ => false

/-- Dict lookup: d.get(k) (first binding wins). -/
def jget (fields : List (String × JsonValue)) (k : String) : Option JsonValue :=
  (fields.find? (fun p => p.1 = k)).map (fun p => p.2)

/-- Dict key containment: k in d. -/
def hasKey (fields : List (String × JsonValue)) (k : String) : Bool :=
  fields.any (fun p => p.1 = k)

/-- Whether a JSON value equals (by Python ==) a given string. -/
def jsonIsStr (key : String) : JsonValue → Bool
  | .str s => s = key
  | _ => false

/-- Does the pattern occur at the head of the text? -/
def subAt : List Char → List Char → Bool
  | [], _ => true
  | _ :: _, [] => false
  | p :: ps, c :: cs => p = c && subAt ps cs

/-- Does the pattern occur anywhere in the text? -/
def hasSub (pat : List Char) : List Char → Bool
  | [] => pat.isEmpty
  | c :: cs => subAt pat (c :: cs) || hasSub pat cs

/-- Python substring containment: pat in hay (for strings). -/
def strContainsSub (hay pat : String) : Bool := hasSub pat.toList hay.toList

/-- Python membership test `key in data` for a string key against a JSON
value: dict key containment, substring test on strings, element equality on
lists, TypeError on non-iterables (None, bool, numbers). -/
def pyIn (key : String) (data : JsonValue) : Except PyError Bool :=
  match data with
  | .obj fields => .ok (hasKey fields key)
  | .str s => .ok (strContainsSub s key)
  | .arr elems => .ok (elems.any (jsonIsStr key))
  | .null => .error (.typeError "argument of type NoneType is not iterable")
  | .bool _ => .error (.typeError "argument of type bool is not iterable")
  | .num _ => .error (.typeError "argument of type int is not iterable")

/-- Whether a JSON value is a Python dict (isinstance(v, dict)). -/
def JsonValue.isDict : JsonValue → Bool
  | .obj _ => true
  | _ => false

/-- Python subscript `data[key]` with a string key: dict lookup (KeyError when
absent), TypeError on strings, lists and other non-dicts. -/
def pyIndex (data : JsonValue) (key : String) : Except PyError JsonValue :=
  match data with
  | .obj fields =>
    match jget fields key with
    | some v => .ok v
    | none => .error (.keyError key)
  | .str _ => .error (.typeError "string indices must be integers")
  | .arr _ => .error (.typeError "list indices must be integers or slices, not str")
  | _ => .error (.typeError "object is not subscriptable")

/-- Tail of a Python int literal body: digits, with single underscores only
between digits. -/
def digitTail : List Char → Bool
  | [] => true
  | c :: rest =>
    if c = '_' then
      match rest with
      | [] => false
      | d :: _ => d.isDigit && digitTail rest
    else
      c.isDigit && digitTail rest

/-- Nonempty digit run, starting with a digit, underscores only between
digits. -/
def validDigits : List Char → Bool
  | [] => false
  | c :: rest => c.isDigit && digitTail rest

/-- Numeric value of a digit run, skipping underscores. -/
def digitsVal (cs : List Char) : Nat :=
  cs.foldl (fun acc c => if c = '_' then acc else acc * 10 + (c.toNat - 48)) 0

/-- Leading and trailing whitespace stripped, as Python int() does first. -/
def pyStrip (s : String) : List Char :=
  ((s.toList.dropWhile Char.isWhitespace).reverse.dropWhile Char.isWhitespace).reverse

/-- Python int(s) on a string: optional whitespace, optional sign, then a
decimal-digit run (underscores allowed between digits). Returns none exactly
when int() raises ValueError. -/
def pyInt (s : String) : Option Int :=
  match pyStrip s with
  | '+' :: rest => if validDigits rest then some (digitsVal rest : Int) else none
  | '-' :: rest => if validDigits rest then some (-(digitsVal rest : Int)) else none
  | cs => if validDigits cs then some (digitsVal cs : Int) else none

/-- ASCII lowercasing of one character (str.lower for header names). -/
def lowerChar (c : Char) : Char :=
  if 'A' ≤ c ∧ c ≤ 'Z' then Char.ofNat (c.toNat + 32) else c

/-- ASCII lowercasing of a header name, as a character list. -/
def lowerStr (s : String) : List Char := s.toList.map lowerChar

/-- Case-insensitive header lookup, as httpx Headers.get does. -/
def headerGet (headers : List (String × String)) (key : String) : Option String :=
  (headers.find? (fun p => lowerStr p.1 = lowerStr key)).map (fun p => p.2)

/-- An HTTP response as seen by _handle_response: status code, headers,
parsed JSON body (none models a malformed, non-JSON body, where
response.json() raises json.JSONDecodeError) and the reason phrase used in
httpx error text. -/
structure HttpResponse where
  status : Nat
  headers : List (String × String)
  body : Option JsonValue
  reason : String

/-- The class part of the httpx raise_for_status error text. -/
def statusClassText (status : Nat) : String :=
  if status < 200 then "Informational response"
  else if status < 400 then "Redirect response"
  else if status < 500 then "Client error"
  else "Server error"

/-- Models str(httpx.HTTPStatusError): mentions the error class, the numeric
status and the reason phrase. -/
def statusErrorMsg (status : Nat) (reason : String) : String :=
  statusClassText status ++ " " ++ toString status ++ " " ++ reason ++ " for url"

/-- The body-shape normalization step of Skrape._handle_response (lines
77-95): if `"result" in data` and data["result"] is a dict, rewrap it in job
shape — async shape when it has a jobId key, synthesized immediate/COMPLETED
shape otherwise; in all remaining non-erroring cases return data unchanged.
Python semantics of `in` and subscripting on non-dict bodies is kept. -/
def normalize (data : JsonValue) : Except PyError JsonValue := do
  let hasRes ← pyIn "result" data
  if hasRes then
    let res ← pyIndex data "result"
    match res with
    | .obj rf =>
      if hasKey rf "jobId" then
        pure (.obj [("jobId", (jget rf "jobId").getD .null),
                    ("status", (jget rf "status").getD (.str "PENDING")),
                    ("result", (jget rf "result").getD .null),
                    ("error", (jget rf "error").getD .null)])
      else
        pure (.obj [("jobId", .str "immediate"),
                    ("status", .str "COMPLETED"),
                    ("result", .obj rf),
                    ("error", .null)])
    | _ => pure data
  else
    pure data

/-- Skrape._handle_response: 429 raises SkrapeAPIError from the Retry-After
header (int() of the header value, default "10") without touching the body;
any other non-2xx status raises httpx.HTTPStatusError via raise_for_status;
then the body is JSON-parsed and normalized. -/
def handle_response (r : HttpResponse) : Except PyError JsonValue :=
  if r.status = 429 then
    match pyInt ((headerGet r.headers "Retry-After").getD "10") with
    | some retry_after =>
      .error (.skrapeAPIError
        ("Rate limit exceeded. Try again in " ++ toString retry_after ++ " seconds"))
    | none =>
      .error (.valueError
        ("invalid literal for int with base 10: " ++
          (headerGet r.headers "Retry-After").getD "10"))
  else if 200 ≤ r.status ∧ r.status < 300 then
    match r.body with
    | some data => normalize data
    | none => .error (.jsonDecodeError "Expecting value: line 1 column 1 char 0")
  else
    .error (.httpStatusError r.status (statusErrorMsg r.status r.reason))

/-- Rate limit information (pydantic model RateLimit). -/
structure RateLimit where
  remaining : Int
  baseLimit : Int
  burstLimit : Int
  reset : Int
  deriving DecidableEq

/-- Information about API usage and rate limits (pydantic model UsageInfo). -/
structure UsageInfo where
  remaining : Int
  rateLimit : RateLimit
  deriving DecidableEq

/-- Response from the markdown endpoint (pydantic model MarkdownResponse). -/
structure MarkdownResponse where
  result : String
  usage : UsageInfo
  deriving DecidableEq

/-- Response from async job endpoints (pydantic model JobResponse), with
result and error defaulting to None. -/
structure JobResponse where
  jobId : String
  status : String
  result : Option JsonValue
  error : Option String

/-- Pydantic validation of an Optional[str] field: absent or null yields
None, a string yields it, anything else fails. -/
def validateOptStr : Option JsonValue → Option (Option String)
  | none => some none
  | some .null => some none
  | some (.str s) => some (some s)
  | some _ => none

/-- Pydantic validation of an Optional[Any] field: absent or null yields
None, anything else is kept as is. -/
def validateAny : Option JsonValue → Option JsonValue
  | none => none
  | some .null => none
  | some v => some v

/-- Pydantic validation of an int field. Python bools are ints (True is 1).
Lax-mode numeric-string coercion is elided; nothing below depends on it. -/
def validateInt : Option JsonValue → Option Int
  | some (.num n) => some n
  | some (.bool b) => some (if b then 1 else 0)
  | _ => none

/-- RateLimit.model_validate on a JSON value. -/
def rateLimit_validate : JsonValue → Option RateLimit
  | .obj f =>
    match validateInt (jget f "remaining"), validateInt (jget f "baseLimit"),
          validateInt (jget f "burstLimit"), validateInt (jget f "reset") with
    | some a, some b, some c, some d => some ⟨a, b, c, d⟩
    | _, _, _, _ => none
  | _ => none

/-- UsageInfo.model_validate on a JSON value. -/
def usageInfo_validate : JsonValue → Option UsageInfo
  | .obj f =>
    match validateInt (jget f "remaining"),
          (jget f "rateLimit").bind rateLimit_validate with
    | some a, some rl => some ⟨a, rl⟩
    | _, _ => none
  | _ => none

/-- JobResponse.model_validate: requires a dict with string jobId and status;
result is Optional[Any] defaulting to None, error Optional[str] defaulting to
None; failure raises pydantic.ValidationError (not the SDK error class). -/
def JobResponse.model_validate (data : JsonValue) : Except PyError JobResponse :=
  match data with
  | .obj fields =>
    match jget fields "jobId", jget fields "status",
          validateOptStr (jget fields "error") with
    | some (.str jobId), some (.str status), some err =>
      .ok ⟨jobId, status, validateAny (jget fields "result"), err⟩
    | _, _, _ => .error (.pydanticValidationError "validation error for JobResponse")
  | _ => .error (.pydanticValidationError "Input should be a valid dictionary")

/-- MarkdownResponse.model_validate: requires a dict with a string result and
a valid UsageInfo usage. -/
def MarkdownResponse.model_validate (data : JsonValue) :
    Except PyError MarkdownResponse :=
  match data with
  | .obj fields =>
    match jget fields "result", (jget fields "usage").bind usageInfo_validate with
    | some (.str res), some u => .ok ⟨res, u⟩
    | _, _ => .error (.pydanticValidationError "validation error for MarkdownResponse")
  | _ => .error (.pydanticValidationError "Input should be a valid dictionary")

/-- Outcome of the transport call itself: a response, or an
httpx connection / timeout failure raised while sending. -/
inductive TransportResult where
  | response (r : HttpResponse)
  | connectError (msg : String)
  | timeoutError (msg : String)

/-- Raise the transport failure as the corresponding httpx exception, or
yield the response. -/
def transportRaise : TransportResult → Except PyError HttpResponse
  | .response r => .ok r
  | .connectError m => .error (.connectError m)
  | .timeoutError m => .error (.timeoutError m)

/-- Apply an except-clause transformation to the error of a computation. -/
def onError (f : PyError → PyError) : Except PyError α → Except PyError α
  | .ok a => .ok a
  | .error e => .error (f e)

/-- The except clause of Skrape.extract (lines 132-138): httpx.HTTPError is
caught; a 401 status becomes the invalid-key SkrapeAPIError, a 503 the
server-busy one, any other httpx error the generic message around str(e).
Exceptions that are not httpx.HTTPError propagate unchanged. -/
def extract_errorMap (e : PyError) : PyError :=
  if e.isHttpxError then
    match e with
    | .httpStatusError 401 _ => .skrapeAPIError "Invalid or missing API key"
    | .httpStatusError 503 _ => .skrapeAPIError "Server too busy, please retry"
    | _ => .skrapeAPIError ("API request failed: " ++ e.pyStr)
  else e

/-- The except clause of markdown, markdown_bulk, crawl and get_job: every
httpx.HTTPError becomes the generic SkrapeAPIError; everything else
propagates unchanged. -/
def generic_errorMap (e : PyError) : PyError :=
  if e.isHttpxError then .skrapeAPIError ("API request failed: " ++ e.pyStr)
  else e

/-- Response processing of Skrape.extract after the POST returns:
_handle_response, then JobResponse.model_validate, under the except
clause of extract. -/
def extract_respond (t : TransportResult) : Except PyError JobResponse :=
  onError extract_errorMap
    ((transportRaise t).bind (fun r =>
      (handle_response r).bind (fun data => JobResponse.model_validate data)))

/-- Response processing of Skrape.markdown: _handle_response, then
MarkdownResponse.model_validate, under the generic except clause. -/
def markdown_respond (t : TransportResult) : Except PyError MarkdownResponse :=
  onError generic_errorMap
    ((transportRaise t).bind (fun r =>
      (handle_response r).bind (fun data => MarkdownResponse.model_validate data)))

/-- Response processing of Skrape.markdown_bulk. -/
def markdown_bulk_respond (t : TransportResult) : Except PyError JobResponse :=
  onError generic_errorMap
    ((transportRaise t).bind (fun r =>
      (handle_response r).bind (fun data => JobResponse.model_validate data)))

/-- Response processing of Skrape.crawl. -/
def crawl_respond (t : TransportResult) : Except PyError JobResponse :=
  onError generic_errorMap
    ((transportRaise t).bind (fun r =>
      (handle_response r).bind (fun data => JobResponse.model_validate data)))

/-- Response processing of Skrape.get_job. -/
def get_job_respond (t : TransportResult) : Except PyError JobResponse :=
  onError generic_errorMap
    ((transportRaise t).bind (fun r =>
      (handle_response r).bind (fun data => JobResponse.model_validate data)))

/-- The configuration of the httpx.AsyncClient the façade creates: the
headers it was given, SSL verification, the timeout in seconds (30.0 in the
source) and redirect following. -/
structure ClientConfig where
  headers : List (String × String)
  verify : Bool
  timeoutSeconds : Nat
  follow_redirects : Bool
  deriving DecidableEq

/-- The httpx.AsyncClient constructed by _get_client (lines 60-65):
verify=True, timeout=30.0, follow_redirects=True, with the stored headers. -/
def mkAsyncClient (headers : List (String × String)) : ClientConfig :=
  { headers := headers, verify := true, timeoutSeconds := 30,
    follow_redirects := true }

/-- The mutable state of a Skrape instance: the fields set by __init__ plus
the lazily created client (None until first use). -/
structure SkrapeState where
  api_key : String
  base_url : String
  headers : List (String × String)
  client : Option ClientConfig

/-- base_url.rstrip of the slash: drop every trailing slash character. -/
def rstripSlashes (s : String) : String :=
  ⟨(s.toList.reverse.dropWhile (fun c => c = '/')).reverse⟩

/-- The default base_url parameter of Skrape.__init__. -/
def defaultBaseUrl : String := "https://skrape.ai/api"

/-- Skrape.__init__: stores the key, the slash-stripped base URL, the bearer
and content-type headers, and no client yet. -/
def Skrape.init (api_key : String) (base_url : String) : SkrapeState :=
  { api_key := api_key
    base_url := rstripSlashes base_url
    headers := [("Authorization", "Bearer " ++ api_key),
                ("Content-Type", "application/json")]
    client := none }

/-- Skrape._get_client: return the stored client, creating (and storing) a
fresh one from the stored headers when none exists. -/
def Skrape.get_client (s : SkrapeState) : ClientConfig × SkrapeState :=
  match s.client with
  | some c => (c, s)
  | none =>
    let c := mkAsyncClient s.headers
    (c, { s with client := some c })

/-- Skrape.__aenter__: ensure the client exists and return the instance. -/
def Skrape.aenter (s : SkrapeState) : SkrapeState :=
  (Skrape.get_client s).2

/-- Skrape.__aexit__: when a client is stored, close it and reset the field
to None; otherwise nothing happens (the field is already None). -/
def Skrape.aexit (s : SkrapeState) : SkrapeState :=
  match s.client with
  | some _ => { s with client := none }
  | none => s

/-- A state is well formed when its stored client, if any, is the one
_get_client would create from its headers. __init__ establishes this and
every operation preserves it. -/
def SkrapeState.wf (s : SkrapeState) : Prop :=
  s.client = none ∨ s.client = some (mkAsyncClient s.headers)

/-- An HTTP request as issued through the httpx client: method, full URL,
the headers the client attaches to it, and the JSON payload. -/
structure Request where
  method : String
  url : String
  headers : List (String × String)
  body : Option JsonValue

/-- Python `options or {}` for an Optional[Dict] argument. -/
def orEmptyDict : Option JsonValue → JsonValue
  | none => .obj []
  | some v => v

/-- Request building of Skrape.extract: POST base_url/extract with
{url, schema, options or {}} via the (possibly just created) client. -/
def Skrape.extract_request (s : SkrapeState) (url : String)
    (schemaJson : JsonValue) (options : Option JsonValue) :
    Request × SkrapeState :=
  let (c, s1) := Skrape.get_client s
  ({ method := "POST", url := s1.base_url ++ "/extract", headers := c.headers,
     body := some (.obj [("url", .str url), ("schema", schemaJson),
                         ("options", orEmptyDict options)]) }, s1)

/-- Request building of Skrape.markdown: POST base_url/markdown with
{url, options or {}}. -/
def Skrape.markdown_request (s : SkrapeState) (url : String)
    (options : Option JsonValue) : Request × SkrapeState :=
  let (c, s1) := Skrape.get_client s
  ({ method := "POST", url := s1.base_url ++ "/markdown", headers := c.headers,
     body := some (.obj [("url", .str url),
                         ("options", orEmptyDict options)]) }, s1)

/-- Request building of Skrape.markdown_bulk: POST base_url/markdown/bulk
with {urls, options or {}}. -/
def Skrape.markdown_bulk_request (s : SkrapeState) (urls : List String)
    (options : Option JsonValue) : Request × SkrapeState :=
  let (c, s1) := Skrape.get_client s
  ({ method := "POST", url := s1.base_url ++ "/markdown/bulk",
     headers := c.headers,
     body := some (.obj [("urls", .arr (urls.map .str)),
                         ("options", orEmptyDict options)]) }, s1)

/-- Request building of Skrape.crawl: POST base_url/crawl with
{urls, options or {}}. -/
def Skrape.crawl_request (s : SkrapeState) (urls : List String)
    (options : Option JsonValue) : Request × SkrapeState :=
  let (c, s1) := Skrape.get_client s
  ({ method := "POST", url := s1.base_url ++ "/crawl", headers := c.headers,
     body := some (.obj [("urls", .arr (urls.map .str)),
                         ("options", orEmptyDict options)]) }, s1)

/-- Request building of Skrape.get_job: GET base_url/get-job?jobId=... with
no payload. -/
def Skrape.get_job_request (s : SkrapeState) (job_id : String) :
    Request × SkrapeState :=
  let (c, s1) := Skrape.get_client s
  ({ method := "GET", url := s1.base_url ++ "/get-job?jobId=" ++ job_id,
     headers := c.headers, body := none }, s1)

/-! Helper lemmas shared by the claim theorems. -/

/-- A successful dict lookup implies the membership test succeeds. -/
theorem hasKey_of_jget {fields : List (String × JsonValue)} {k : String}
    {v : JsonValue} (h : jget fields k = some v) : hasKey fields k = true := by
  unfold jget at h
  unfold hasKey
  cases hf : fields.find? (fun p => p.1 = k) with
  | none => rw [hf] at h; simp at h
  | some q =>
    have hq := List.find?_some hf
    exact List.any_eq_true.mpr ⟨q, List.mem_of_find?_eq_some hf, hq⟩

/-- A failed dict lookup implies the membership test fails. -/
theorem hasKey_false_of_jget_none {fields : List (String × JsonValue)}
    {k : String} (h : jget fields k = none) : hasKey fields k = false := by
  unfold jget at h
  unfold hasKey
  cases hf : fields.find? (fun p => p.1 = k) with
  | none =>
    simp only [List.any_eq_false]
    exact fun p hp => List.find?_eq_none.mp hf p hp
  | some q => rw [hf] at h; simp at h

/-- The pattern matches at the head of pattern ++ suffix. -/
theorem subAt_self_append (p ys : List Char) : subAt p (p ++ ys) = true := by
  induction p with
  | nil => rfl
  | cons c cs ih => simp [subAt, ih]

/-- A pattern occurs in any text of the form before ++ pattern ++ after. -/
theorem hasSub_append_self (xs pat ys : List Char) :
    hasSub pat (xs ++ pat ++ ys) = true := by
  induction xs with
  | nil =>
    cases pat with
    | nil =>
      cases ys with
      | nil => rfl
      | cons c cs => simp [hasSub, subAt]
    | cons p ps =>
      simp only [List.nil_append, List.cons_append, hasSub, Bool.or_eq_true]
      exact Or.inl (by simpa using subAt_self_append (p :: ps) ys)
  | cons x xs ih =>
    simp only [List.cons_append, hasSub, Bool.or_eq_true]
    exact Or.inr (by simpa [List.append_assoc] using ih)

/-- Substring containment across string concatenation. -/
theorem strContainsSub_append_mid (a b c : String) :
    strContainsSub (a ++ b ++ c) b = true := by
  unfold strContainsSub
  have : (a ++ b ++ c).toList = a.toList ++ b.toList ++ c.toList := by
    simp [String.toList, String.data_append]
  rw [this]
  exact hasSub_append_self a.toList b.toList c.toList

/-- Normalization of a dict body whose result value is a dict with a jobId
key: the async job shape is extracted field by field. -/
theorem normalize_async {fields rf : List (String × JsonValue)}
    (h : jget fields "result" = some (.obj rf)) (hj : hasKey rf "jobId" = true) :
    normalize (.obj fields) =
      .ok (.obj [("jobId", (jget rf "jobId").getD .null),
                 ("status", (jget rf "status").getD (.str "PENDING")),
                 ("result", (jget rf "result").getD .null),
                 ("error", (jget rf "error").getD .null)]) := by
  unfold normalize pyIn pyIndex
  simp [hasKey_of_jget h, h, hj, bind, Except.bind, pure, Except.pure]

/-- Normalization of a dict body whose result value is a dict without a
jobId key: the synthesized immediate/COMPLETED shape. -/
theorem normalize_sync {fields rf : List (String × JsonValue)}
    (h : jget fields "result" = some (.obj rf)) (hj : hasKey rf "jobId" = false) :
    normalize (.obj fields) =
      .ok (.obj [("jobId", .str "immediate"),
                 ("status", .str "COMPLETED"),
                 ("result", .obj rf),
                 ("error", .null)]) := by
  unfold normalize pyIn pyIndex
  simp [hasKey_of_jget h, h, hj, bind, Except.bind, pure, Except.pure]

/-- Normalization of a dict body without a result key: unchanged. -/
theorem normalize_noresult {fields : List (String × JsonValue)}
    (h : jget fields "result" = none) :
    normalize (.obj fields) = .ok (.obj fields) := by
  unfold normalize pyIn
  simp [hasKey_false_of_jget_none h, bind, Except.bind, pure, Except.pure]

/-- Normalization of a dict body whose result value is not a dict:
unchanged. -/
theorem normalize_nondict {fields : List (String × JsonValue)} {v : JsonValue}
    (h : jget fields "result" = some v) (hv : v.isDict = false) :
    normalize (.obj fields) = .ok (.obj fields) := by
  unfold normalize pyIn pyIndex
  cases v with
  | obj rf => simp [JsonValue.isDict] at hv
  | null => simp [hasKey_of_jget h, h, bind, Except.bind, pure, Except.pure]
  | bool b => simp [hasKey_of_jget h, h, bind, Except.bind, pure, Except.pure]
  | num n => simp [hasKey_of_jget h, h, bind, Except.bind, pure, Except.pure]
  | str s => simp [hasKey_of_jget h, h, bind, Except.bind, pure, Except.pure]
  | arr xs => simp [hasKey_of_jget h, h, bind, Except.bind, pure, Except.pure]

/-- Running _handle_response on a 2xx response with a JSON body runs the
normalizer. -/
theorem handle_response_2xx {r : HttpResponse} {data : JsonValue}
    (h2 : 200 ≤ r.status) (h3 : r.status < 300) (hb : r.body = some data) :
    handle_response r = normalize data := by
  unfold handle_response
  rw [if_neg (by omega), if_pos ⟨h2, h3⟩, hb]

/-- Running _handle_response on a 2xx response with a malformed body raises the json
decode error (response.json() fails before any SDK error can be built). -/
theorem handle_response_2xx_nobody {r : HttpResponse}
    (h2 : 200 ≤ r.status) (h3 : r.status < 300) (hb : r.body = none) :
    handle_response r =
      .error (.jsonDecodeError "Expecting value: line 1 column 1 char 0") := by
  unfold handle_response
  rw [if_neg (by omega), if_pos ⟨h2, h3⟩, hb]

/-- Running _handle_response on a non-2xx, non-429 response raises
httpx.HTTPStatusError via raise_for_status. -/
theorem handle_response_status {r : HttpResponse} (h429 : r.status ≠ 429)
    (hns : ¬(200 ≤ r.status ∧ r.status < 300)) :
    handle_response r =
      .error (.httpStatusError r.status (statusErrorMsg r.status r.reason)) := by
  unfold handle_response
  rw [if_neg h429, if_neg hns]

/-- Running _handle_response on 429 when int() accepts the Retry-After value (or its
absence defaults it to "10"): the rate-limit SkrapeAPIError. -/
theorem handle_response_429_int {r : HttpResponse} {n : Int}
    (h : r.status = 429)
    (hn : pyInt ((headerGet r.headers "Retry-After").getD "10") = some n) :
    handle_response r =
      .error (.skrapeAPIError
        ("Rate limit exceeded. Try again in " ++ toString n ++ " seconds")) := by
  unfold handle_response
  rw [if_pos h, hn]

/-- Running _handle_response on 429 when int() rejects the Retry-After value: a plain
ValueError, raised before any SkrapeAPIError is constructed. -/
theorem handle_response_429_bad {r : HttpResponse}
    (h : r.status = 429)
    (hn : pyInt ((headerGet r.headers "Retry-After").getD "10") = none) :
    handle_response r =
      .error (.valueError
        ("invalid literal for int with base 10: " ++
          (headerGet r.headers "Retry-After").getD "10")) := by
  unfold handle_response
  rw [if_pos h, hn]

/-- The extract except clause on a status error that is neither 401 nor
503: the generic wrapped message. -/
theorem extract_errorMap_status_other {s : Nat} {m : String}
    (h1 : s ≠ 401) (h2 : s ≠ 503) :
    extract_errorMap (.httpStatusError s m) =
      .skrapeAPIError ("API request failed: " ++ m) := by
  unfold extract_errorMap
  simp only [PyError.isHttpxError, if_true]
  split
  · rename_i heq; injection heq with hs _; exact absurd hs h1
  · rename_i heq; injection heq with hs _; exact absurd hs h2
  · rfl

/-- The extract except clause passes a SkrapeAPIError through unchanged (it
is not an httpx.HTTPError). -/
theorem extract_errorMap_api (m : String) :
    extract_errorMap (.skrapeAPIError m) = .skrapeAPIError m := rfl

/-- The generic except clause passes a SkrapeAPIError through unchanged. -/
theorem generic_errorMap_api (m : String) :
    generic_errorMap (.skrapeAPIError m) = .skrapeAPIError m := rfl

/-- The extract except clause passes a ValueError through unchanged. -/
theorem extract_errorMap_valueError (m : String) :
    extract_errorMap (.valueError m) = .valueError m := rfl

/-- The generic except clause passes a ValueError through unchanged. -/
theorem generic_errorMap_valueError (m : String) :
    generic_errorMap (.valueError m) = .valueError m := rfl

/-- The generic except clause wraps any status error generically. -/
theorem generic_errorMap_status (s : Nat) (m : String) :
    generic_errorMap (.httpStatusError s m) =
      .skrapeAPIError ("API request failed: " ++ m) := rfl

/-- extract response processing when _handle_response raises: the except
clause transformation applies. -/
theorem extract_respond_error {r : HttpResponse} {e : PyError}
    (h : handle_response r = .error e) :
    extract_respond (.response r) = .error (extract_errorMap e) := by
  unfold extract_respond transportRaise
  rw [show (Except.ok r : Except PyError HttpResponse).bind
        (fun r2 => (handle_response r2).bind
          (fun d => JobResponse.model_validate d)) =
      (handle_response r).bind (fun d => JobResponse.model_validate d) from rfl,
    h]
  rfl

/-- extract response processing when _handle_response succeeds: validate the
normalized data (a validation failure is not an httpx error, so the except
clause leaves it alone, and a success passes through). -/
theorem extract_respond_ok {r : HttpResponse} {d : JsonValue}
    (h : handle_response r = .ok d) :
    extract_respond (.response r) =
      onError extract_errorMap (JobResponse.model_validate d) := by
  unfold extract_respond transportRaise
  rw [show (Except.ok r : Except PyError HttpResponse).bind
        (fun r2 => (handle_response r2).bind
          (fun d => JobResponse.model_validate d)) =
      (handle_response r).bind (fun d => JobResponse.model_validate d) from rfl,
    h]
  rfl

/-- markdown response processing when _handle_response raises. -/
theorem markdown_respond_error {r : HttpResponse} {e : PyError}
    (h : handle_response r = .error e) :
    markdown_respond (.response r) = .error (generic_errorMap e) := by
  unfold markdown_respond transportRaise
  rw [show (Except.ok r : Except PyError HttpResponse).bind
        (fun r2 => (handle_response r2).bind
          (fun d => MarkdownResponse.model_validate d)) =
      (handle_response r).bind (fun d => MarkdownResponse.model_validate d) from
      rfl,
    h]
  rfl

/-- markdown_bulk response processing when _handle_response raises. -/
theorem markdown_bulk_respond_error {r : HttpResponse} {e : PyError}
    (h : handle_response r = .error e) :
    markdown_bulk_respond (.response r) = .error (generic_errorMap e) := by
  unfold markdown_bulk_respond transportRaise
  rw [show (Except.ok r : Except PyError HttpResponse).bind
        (fun r2 => (handle_response r2).bind
          (fun d => JobResponse.model_validate d)) =
      (handle_response r).bind (fun d => JobResponse.model_validate d) from rfl,
    h]
  rfl

/-- crawl response processing when _handle_response raises. -/
theorem crawl_respond_error {r : HttpResponse} {e : PyError}
    (h : handle_response r = .error e) :
    crawl_respond (.response r) = .error (generic_errorMap e) := by
  unfold crawl_respond transportRaise
  rw [show (Except.ok r : Except PyError HttpResponse).bind
        (fun r2 => (handle_response r2).bind
          (fun d => JobResponse.model_validate d)) =
      (handle_response r).bind (fun d => JobResponse.model_validate d) from rfl,
    h]
  rfl

/-- get_job response processing when _handle_response raises. -/
theorem get_job_respond_error {r : HttpResponse} {e : PyError}
    (h : handle_response r = .error e) :
    get_job_respond (.response r) = .error (generic_errorMap e) := by
  unfold get_job_respond transportRaise
  rw [show (Except.ok r : Except PyError HttpResponse).bind
        (fun r2 => (handle_response r2).bind
          (fun d => JobResponse.model_validate d)) =
      (handle_response r).bind (fun d => JobResponse.model_validate d) from rfl,
    h]
  rfl

/-- get_job response processing when _handle_response succeeds. -/
theorem get_job_respond_ok {r : HttpResponse} {d : JsonValue}
    (h : handle_response r = .ok d) :
    get_job_respond (.response r) =
      onError generic_errorMap (JobResponse.model_validate d) := by
  unfold get_job_respond transportRaise
  rw [show (Except.ok r : Except PyError HttpResponse).bind
        (fun r2 => (handle_response r2).bind
          (fun d => JobResponse.model_validate d)) =
      (handle_response r).bind (fun d => JobResponse.model_validate d) from rfl,
    h]
  rfl

/-! The claim theorems. -/

/-- C7: constructing a JobResult from the map with jobId "abc" and status
"RUNNING" and no result/error fields yields jobId "abc", status "RUNNING",
result absent (None) and error absent (None). -/
theorem claim_C7 :
    JobResponse.model_validate
      (.obj [("jobId", .str "abc"), ("status", .str "RUNNING")]) =
      .ok ⟨"abc", "RUNNING", none, none⟩ := rfl

/-- C8: the façade creates its Transport session lazily (none at
construction, created and stored on first use), reuses a stored session,
resets the stored session to the uncreated state on exit, and after close the
next use recreates a fresh session from the stored headers rather than
failing. -/
theorem claim_C8 (k u : String) (s : SkrapeState) :
    (Skrape.init k u).client = none
    ∧ (s.client = none →
        Skrape.get_client s =
          (mkAsyncClient s.headers,
           { s with client := some (mkAsyncClient s.headers) }))
    ∧ (∀ c, s.client = some c → Skrape.get_client s = (c, s))
    ∧ (Skrape.aexit s).client = none
    ∧ Skrape.get_client (Skrape.aexit s) =
        (mkAsyncClient s.headers,
         { s with client := some (mkAsyncClient s.headers) }) := by
  obtain ⟨ak, bu, hd, cl⟩ := s
  refine ⟨rfl, fun h => by cases h; rfl, fun c h => by cases h; rfl, ?_, ?_⟩
  · cases cl <;> rfl
  · cases cl <;> rfl

/-- C8 witness: a freshly constructed façade has no session, first use
creates one, and after exit the next use recreates one. -/
theorem claim_C8_witness :
    (Skrape.init "key" defaultBaseUrl).client = none
    ∧ Skrape.get_client (Skrape.init "key" defaultBaseUrl) =
        (mkAsyncClient (Skrape.init "key" defaultBaseUrl).headers,
         { Skrape.init "key" defaultBaseUrl with
             client := some (mkAsyncClient (Skrape.init "key" defaultBaseUrl).headers) })
    ∧ Skrape.get_client (Skrape.aexit (Skrape.init "key" defaultBaseUrl)) =
        (mkAsyncClient (Skrape.init "key" defaultBaseUrl).headers,
         { Skrape.init "key" defaultBaseUrl with
             client := some (mkAsyncClient (Skrape.init "key" defaultBaseUrl).headers) }) := by
  have h := claim_C8 "key" defaultBaseUrl (Skrape.init "key" defaultBaseUrl)
  exact ⟨h.1, h.2.1 rfl, h.2.2.2.2⟩

/-- C9: in a well-formed state carrying the headers __init__ builds, the
session is configured with TLS verification on, a 30 second timeout and
redirect following, and every request built by the five operations carries
the Authorization Bearer header for the configured key and the JSON content
type; __init__ establishes well-formedness and get_client/aexit preserve
it. -/
theorem claim_C9 (k u url jid : String) (urls : List String)
    (sch : JsonValue) (opt : Option JsonValue) (s : SkrapeState)
    (hh : s.headers = [("Authorization", "Bearer " ++ k),
                       ("Content-Type", "application/json")])
    (hwf : s.wf) :
    (Skrape.init k u).headers = [("Authorization", "Bearer " ++ k),
                                 ("Content-Type", "application/json")]
    ∧ (Skrape.init k u).wf
    ∧ ((Skrape.get_client s).2).wf
    ∧ (Skrape.aexit s).wf
    ∧ (Skrape.get_client s).1 = mkAsyncClient s.headers
    ∧ (Skrape.get_client s).1.verify = true
    ∧ (Skrape.get_client s).1.timeoutSeconds = 30
    ∧ (Skrape.get_client s).1.follow_redirects = true
    ∧ (Skrape.extract_request s url sch opt).1.headers =
        [("Authorization", "Bearer " ++ k), ("Content-Type", "application/json")]
    ∧ (Skrape.markdown_request s url opt).1.headers =
        [("Authorization", "Bearer " ++ k), ("Content-Type", "application/json")]
    ∧ (Skrape.markdown_bulk_request s urls opt).1.headers =
        [("Authorization", "Bearer " ++ k), ("Content-Type", "application/json")]
    ∧ (Skrape.crawl_request s urls opt).1.headers =
        [("Authorization", "Bearer " ++ k), ("Content-Type", "application/json")]
    ∧ (Skrape.get_job_request s jid).1.headers =
        [("Authorization", "Bearer " ++ k), ("Content-Type", "application/json")] := by
  obtain ⟨ak, bu, hd, cl⟩ := s
  simp only [SkrapeState.wf] at hwf
  simp only at hh
  cases hh
  rcases hwf with hc | hc <;> cases hc <;>
    exact ⟨rfl, Or.inl rfl, Or.inr rfl, Or.inl rfl, rfl, rfl, rfl, rfl,
           rfl, rfl, rfl, rfl, rfl⟩

/-- C9 witness: the extract request of a fresh façade carries the bearer and
content-type headers, and its session has TLS verification enabled. -/
theorem claim_C9_witness :
    (Skrape.extract_request (Skrape.init "key" defaultBaseUrl)
        "https://example.com" (.obj []) none).1.headers =
      [("Authorization", "Bearer " ++ "key"), ("Content-Type", "application/json")]
    ∧ (Skrape.get_client (Skrape.init "key" defaultBaseUrl)).1.verify = true := by
  have h := claim_C9 "key" defaultBaseUrl "https://example.com" "job1" []
    (.obj []) none (Skrape.init "key" defaultBaseUrl) rfl (Or.inl rfl)
  exact ⟨h.2.2.2.2.2.2.2.2.1, h.2.2.2.2.2.1⟩

/-- C3 counterexample: a successfully parsed 2xx response body that is the
JSON number 5 is not passed through unchanged — the membership test
`"result" in data` raises TypeError on a non-iterable body. -/
theorem claim_C3_counterexample :
    handle_response ⟨200, [], some (.num 5), "OK"⟩ =
      .error (.typeError "argument of type int is not iterable")
    ∧ handle_response ⟨200, [], some (.num 5), "OK"⟩ ≠ .ok (.num 5) := by
  refine ⟨rfl, fun h => ?_⟩
  exact Except.noConfusion h

/-- C3 amended: for every successfully parsed 2xx response whose body is a
dict: if body result is a dict with a jobId key, the normalizer returns the
async job shape (status defaulting to PENDING, result/error defaulting to
absent); if body result is a dict without jobId, the synthesized
immediate/COMPLETED shape; every other dict body (no result key, or a
non-dict result value) is returned unchanged. -/
theorem claim_C3 (r : HttpResponse) (fields : List (String × JsonValue))
    (h2 : 200 ≤ r.status) (h3 : r.status < 300)
    (hb : r.body = some (.obj fields)) :
    (∀ rf, jget fields "result" = some (.obj rf) → hasKey rf "jobId" = true →
      handle_response r =
        .ok (.obj [("jobId", (jget rf "jobId").getD .null),
                   ("status", (jget rf "status").getD (.str "PENDING")),
                   ("result", (jget rf "result").getD .null),
                   ("error", (jget rf "error").getD .null)]))
    ∧ (∀ rf, jget fields "result" = some (.obj rf) → hasKey rf "jobId" = false →
      handle_response r =
        .ok (.obj [("jobId", .str "immediate"), ("status", .str "COMPLETED"),
                   ("result", .obj rf), ("error", .null)]))
    ∧ (jget fields "result" = none → handle_response r = .ok (.obj fields))
    ∧ (∀ v, jget fields "result" = some v → v.isDict = false →
        handle_response r = .ok (.obj fields)) := by
  have hr := handle_response_2xx h2 h3 hb
  exact ⟨fun rf hf hj => hr.trans (normalize_async hf hj),
         fun rf hf hj => hr.trans (normalize_sync hf hj),
         fun hf => hr.trans (normalize_noresult hf),
         fun v hf hv => hr.trans (normalize_nondict hf hv)⟩

/-- C3 witness: the three normalizer shapes at concrete bodies. -/
theorem claim_C3_witness :
    handle_response ⟨200, [],
        some (.obj [("result", .obj [("jobId", .str "j1")])]), "OK"⟩ =
      .ok (.obj [("jobId", .str "j1"), ("status", .str "PENDING"),
                 ("result", .null), ("error", .null)])
    ∧ handle_response ⟨200, [],
        some (.obj [("result", .obj [("title", .str "T")])]), "OK"⟩ =
      .ok (.obj [("jobId", .str "immediate"), ("status", .str "COMPLETED"),
                 ("result", .obj [("title", .str "T")]), ("error", .null)])
    ∧ handle_response ⟨200, [], some (.obj [("ok", .bool true)]), "OK"⟩ =
      .ok (.obj [("ok", .bool true)]) := by
  refine ⟨?_, ?_, ?_⟩
  · exact (claim_C3 ⟨200, [],
        some (.obj [("result", .obj [("jobId", .str "j1")])]), "OK"⟩
      [("result", .obj [("jobId", .str "j1")])]
      (by decide) (by decide) rfl).1 [("jobId", .str "j1")] rfl rfl
  · exact (claim_C3 ⟨200, [],
        some (.obj [("result", .obj [("title", .str "T")])]), "OK"⟩
      [("result", .obj [("title", .str "T")])]
      (by decide) (by decide) rfl).2.1 [("title", .str "T")] rfl rfl
  · exact (claim_C3 ⟨200, [], some (.obj [("ok", .bool true)]), "OK"⟩
      [("ok", .bool true)] (by decide) (by decide) rfl).2.2.1 rfl

/-- C4 counterexample: a 2xx extract response whose result map itself carries
jobId "immediate" with status "RUNNING" yields a JobResult with jobId
"immediate" whose status is not "COMPLETED". -/
theorem claim_C4_counterexample :
    extract_respond (.response ⟨200, [],
        some (.obj [("result", .obj [("jobId", .str "immediate"),
                                     ("status", .str "RUNNING")])]), "OK"⟩) =
      .ok ⟨"immediate", "RUNNING", none, none⟩
    ∧ ("RUNNING" : String) ≠ "COMPLETED" := by
  exact ⟨rfl, by decide⟩

/-- C4 amended: every valid extract call whose 2xx response carries the
synchronous shape (a result map with no jobId key) returns a JobResult with
jobId "immediate" and status "COMPLETED". The jobId "immediate" implies
status "COMPLETED" only for these synthesized results: a server-supplied
result map carrying its own jobId "immediate" passes its status through. -/
theorem claim_C4 (r : HttpResponse) (fields rf : List (String × JsonValue))
    (h2 : 200 ≤ r.status) (h3 : r.status < 300)
    (hb : r.body = some (.obj fields))
    (hf : jget fields "result" = some (.obj rf))
    (hj : hasKey rf "jobId" = false) :
    extract_respond (.response r) =
      .ok ⟨"immediate", "COMPLETED", some (.obj rf), none⟩ := by
  have hr := (handle_response_2xx h2 h3 hb).trans (normalize_sync hf hj)
  rw [extract_respond_ok hr]
  rfl

/-- C4 witness: a concrete synchronous extract response. -/
theorem claim_C4_witness :
    extract_respond (.response ⟨200, [],
        some (.obj [("result", .obj [("title", .str "T")])]), "OK"⟩) =
      .ok ⟨"immediate", "COMPLETED", some (.obj [("title", .str "T")]), none⟩ :=
  claim_C4 ⟨200, [], some (.obj [("result", .obj [("title", .str "T")])]), "OK"⟩
    [("result", .obj [("title", .str "T")])] [("title", .str "T")]
    (by decide) (by decide) rfl rfl rfl

/-- C5: every 429 response fails immediately with an API error carrying the
Retry-After value (10 when the header is absent) in its message, on all five
operations; the body is never consulted; with Retry-After 7 the message is
the 7-second one, which contains "7". -/
theorem claim_C5 (r : HttpResponse) (h : r.status = 429) :
    (headerGet r.headers "Retry-After" = none →
      (extract_respond (.response r) =
        .error (.skrapeAPIError "Rate limit exceeded. Try again in 10 seconds")
      ∧ markdown_respond (.response r) =
        .error (.skrapeAPIError "Rate limit exceeded. Try again in 10 seconds")
      ∧ markdown_bulk_respond (.response r) =
        .error (.skrapeAPIError "Rate limit exceeded. Try again in 10 seconds")
      ∧ crawl_respond (.response r) =
        .error (.skrapeAPIError "Rate limit exceeded. Try again in 10 seconds")
      ∧ get_job_respond (.response r) =
        .error (.skrapeAPIError "Rate limit exceeded. Try again in 10 seconds")))
    ∧ (∀ v n, headerGet r.headers "Retry-After" = some v → pyInt v = some n →
      (extract_respond (.response r) =
        .error (.skrapeAPIError
          ("Rate limit exceeded. Try again in " ++ toString n ++ " seconds"))
      ∧ markdown_respond (.response r) =
        .error (.skrapeAPIError
          ("Rate limit exceeded. Try again in " ++ toString n ++ " seconds"))
      ∧ markdown_bulk_respond (.response r) =
        .error (.skrapeAPIError
          ("Rate limit exceeded. Try again in " ++ toString n ++ " seconds"))
      ∧ crawl_respond (.response r) =
        .error (.skrapeAPIError
          ("Rate limit exceeded. Try again in " ++ toString n ++ " seconds"))
      ∧ get_job_respond (.response r) =
        .error (.skrapeAPIError
          ("Rate limit exceeded. Try again in " ++ toString n ++ " seconds"))))
    ∧ (∀ b, handle_response { r with body := b } = handle_response r)
    ∧ (headerGet r.headers "Retry-After" = some "7" →
      (extract_respond (.response r) =
        .error (.skrapeAPIError "Rate limit exceeded. Try again in 7 seconds")
      ∧ strContainsSub "Rate limit exceeded. Try again in 7 seconds" "7" = true)) := by
  refine ⟨?_, ?_, ?_, ?_⟩
  · intro hno
    have hn : pyInt ((headerGet r.headers "Retry-After").getD "10") = some 10 := by
      rw [hno]; decide
    have hr := handle_response_429_int h hn
    have hs : ("Rate limit exceeded. Try again in " ++ toString (10 : Int) ++
        " seconds") = "Rate limit exceeded. Try again in 10 seconds" := by decide
    rw [hs] at hr
    exact ⟨by rw [extract_respond_error hr, extract_errorMap_api],
           by rw [markdown_respond_error hr, generic_errorMap_api],
           by rw [markdown_bulk_respond_error hr, generic_errorMap_api],
           by rw [crawl_respond_error hr, generic_errorMap_api],
           by rw [get_job_respond_error hr, generic_errorMap_api]⟩
  · intro v n hv hn
    have hn2 : pyInt ((headerGet r.headers "Retry-After").getD "10") = some n := by
      rw [hv]; exact hn
    have hr := handle_response_429_int h hn2
    exact ⟨by rw [extract_respond_error hr, extract_errorMap_api],
           by rw [markdown_respond_error hr, generic_errorMap_api],
           by rw [markdown_bulk_respond_error hr, generic_errorMap_api],
           by rw [crawl_respond_error hr, generic_errorMap_api],
           by rw [get_job_respond_error hr, generic_errorMap_api]⟩
  · intro b
    obtain ⟨st, hd, bd, rs⟩ := r
    cases h
    rfl
  · intro hv
    have hn : pyInt ((headerGet r.headers "Retry-After").getD "10") = some 7 := by
      rw [hv]; decide
    have hr := handle_response_429_int h hn
    have hs : ("Rate limit exceeded. Try again in " ++ toString (7 : Int) ++
        " seconds") = "Rate limit exceeded. Try again in 7 seconds" := by decide
    rw [hs] at hr
    exact ⟨by rw [extract_respond_error hr, extract_errorMap_api], by decide⟩

/-- C5 witness: a 429 response with Retry-After 7. -/
theorem claim_C5_witness :
    extract_respond (.response
        ⟨429, [("Retry-After", "7")], none, "Too Many Requests"⟩) =
      .error (.skrapeAPIError "Rate limit exceeded. Try again in 7 seconds")
    ∧ strContainsSub "Rate limit exceeded. Try again in 7 seconds" "7" = true :=
  (claim_C5 ⟨429, [("Retry-After", "7")], none, "Too Many Requests"⟩
    rfl).2.2.2 (by decide)

/-- C10: on 429 the Retry-After header is fed to int() before the API error
is built: an absent header or a decimal-integer value produces the rate-limit
SkrapeAPIError, while a non-integer value makes int() raise a plain
ValueError — not the SDK API error — that the façade propagates unwrapped. -/
theorem claim_C10 (r : HttpResponse) (h : r.status = 429) :
    (headerGet r.headers "Retry-After" = none →
      extract_respond (.response r) =
        .error (.skrapeAPIError "Rate limit exceeded. Try again in 10 seconds"))
    ∧ (∀ v n, headerGet r.headers "Retry-After" = some v → pyInt v = some n →
      extract_respond (.response r) =
        .error (.skrapeAPIError
          ("Rate limit exceeded. Try again in " ++ toString n ++ " seconds")))
    ∧ (∀ v, headerGet r.headers "Retry-After" = some v → pyInt v = none →
      (handle_response r =
        .error (.valueError ("invalid literal for int with base 10: " ++ v))
      ∧ extract_respond (.response r) =
        .error (.valueError ("invalid literal for int with base 10: " ++ v))
      ∧ get_job_respond (.response r) =
        .error (.valueError ("invalid literal for int with base 10: " ++ v))
      ∧ PyError.isSkrapeAPIError
          (.valueError ("invalid literal for int with base 10: " ++ v)) =
          false)) := by
  refine ⟨?_, ?_, ?_⟩
  · intro hno
    have hn : pyInt ((headerGet r.headers "Retry-After").getD "10") = some 10 := by
      rw [hno]; decide
    have hr := handle_response_429_int h hn
    have hs : ("Rate limit exceeded. Try again in " ++ toString (10 : Int) ++
        " seconds") = "Rate limit exceeded. Try again in 10 seconds" := by decide
    rw [hs] at hr
    rw [extract_respond_error hr, extract_errorMap_api]
  · intro v n hv hn
    have hn2 : pyInt ((headerGet r.headers "Retry-After").getD "10") = some n := by
      rw [hv]; exact hn
    have hr := handle_response_429_int h hn2
    rw [extract_respond_error hr, extract_errorMap_api]
  · intro v hv hn
    have hn2 : pyInt ((headerGet r.headers "Retry-After").getD "10") = none := by
      rw [hv]; exact hn
    have hr := handle_response_429_bad h hn2
    rw [hv, Option.getD_some] at hr
    exact ⟨hr,
           by rw [extract_respond_error hr, extract_errorMap_valueError],
           by rw [get_job_respond_error hr, generic_errorMap_valueError],
           rfl⟩

/-- C10 witness: an HTTP-date Retry-After value raises ValueError (not the
SDK API error), a missing header raises the 10-second rate-limit error. -/
theorem claim_C10_witness :
    (handle_response ⟨429,
        [("Retry-After", "Wed, 21 Oct 2015 07:28:00 GMT")], none,
        "Too Many Requests"⟩ =
      .error (.valueError
        ("invalid literal for int with base 10: " ++
          "Wed, 21 Oct 2015 07:28:00 GMT"))
    ∧ extract_respond (.response ⟨429,
        [("Retry-After", "Wed, 21 Oct 2015 07:28:00 GMT")], none,
        "Too Many Requests"⟩) =
      .error (.valueError
        ("invalid literal for int with base 10: " ++
          "Wed, 21 Oct 2015 07:28:00 GMT"))
    ∧ get_job_respond (.response ⟨429,
        [("Retry-After", "Wed, 21 Oct 2015 07:28:00 GMT")], none,
        "Too Many Requests"⟩) =
      .error (.valueError
        ("invalid literal for int with base 10: " ++
          "Wed, 21 Oct 2015 07:28:00 GMT"))
    ∧ PyError.isSkrapeAPIError
        (.valueError
          ("invalid literal for int with base 10: " ++
            "Wed, 21 Oct 2015 07:28:00 GMT")) = false)
    ∧ extract_respond (.response ⟨429, [], none, "Too Many Requests"⟩) =
      .error (.skrapeAPIError "Rate limit exceeded. Try again in 10 seconds") :=
  ⟨(claim_C10 ⟨429, [("Retry-After", "Wed, 21 Oct 2015 07:28:00 GMT")], none,
      "Too Many Requests"⟩ rfl).2.2 "Wed, 21 Oct 2015 07:28:00 GMT" (by decide)
      (by decide),
   (claim_C10 ⟨429, [], none, "Too Many Requests"⟩ rfl).1 (by decide)⟩

/-- C1 counterexample: markdown (unlike extract) maps a 401 response to the
generic request-failed API error; its message does not state invalid or
missing credentials. -/
theorem claim_C1_counterexample :
    markdown_respond (.response ⟨401, [], some (.obj []), "Unauthorized"⟩) =
      .error (.skrapeAPIError
        "API request failed: Client error 401 Unauthorized for url")
    ∧ strContainsSub
        "API request failed: Client error 401 Unauthorized for url"
        "Invalid" = false
    ∧ strContainsSub
        "API request failed: Client error 401 Unauthorized for url"
        "credentials" = false
    ∧ strContainsSub
        "API request failed: Client error 401 Unauthorized for url"
        "key" = false := by
  refine ⟨?_, by decide, by decide, by decide⟩
  have hr := handle_response_status
    (r := ⟨401, [], some (.obj []), "Unauthorized"⟩) (by decide) (by decide)
  rw [markdown_respond_error hr, generic_errorMap_status]
  rfl

/-- C1 amended: only extract specializes the 401 and 503 messages; on every
non-2xx, non-429 status each of the other four operations (and extract for
statuses other than 401/503) raises the generic request-failed API error
whose message includes the underlying status text. -/
theorem claim_C1 (r : HttpResponse) (h429 : r.status ≠ 429)
    (hns : ¬(200 ≤ r.status ∧ r.status < 300)) :
    (r.status = 401 → extract_respond (.response r) =
      .error (.skrapeAPIError "Invalid or missing API key"))
    ∧ (r.status = 503 → extract_respond (.response r) =
      .error (.skrapeAPIError "Server too busy, please retry"))
    ∧ (r.status ≠ 401 → r.status ≠ 503 →
      extract_respond (.response r) =
        .error (.skrapeAPIError
          ("API request failed: " ++ statusErrorMsg r.status r.reason)))
    ∧ markdown_respond (.response r) =
        .error (.skrapeAPIError
          ("API request failed: " ++ statusErrorMsg r.status r.reason))
    ∧ markdown_bulk_respond (.response r) =
        .error (.skrapeAPIError
          ("API request failed: " ++ statusErrorMsg r.status r.reason))
    ∧ crawl_respond (.response r) =
        .error (.skrapeAPIError
          ("API request failed: " ++ statusErrorMsg r.status r.reason))
    ∧ get_job_respond (.response r) =
        .error (.skrapeAPIError
          ("API request failed: " ++ statusErrorMsg r.status r.reason))
    ∧ strContainsSub (statusErrorMsg r.status r.reason)
        (toString r.status) = true := by
  have hr := handle_response_status h429 hns
  refine ⟨?_, ?_, ?_, ?_, ?_, ?_, ?_, ?_⟩
  · intro h401
    rw [extract_respond_error hr, h401]
    rfl
  · intro h503
    rw [extract_respond_error hr, h503]
    rfl
  · intro hn1 hn2
    rw [extract_respond_error hr, extract_errorMap_status_other hn1 hn2]
  · rw [markdown_respond_error hr, generic_errorMap_status]
  · rw [markdown_bulk_respond_error hr, generic_errorMap_status]
  · rw [crawl_respond_error hr, generic_errorMap_status]
  · rw [get_job_respond_error hr, generic_errorMap_status]
  · have hmsg : statusErrorMsg r.status r.reason =
        (statusClassText r.status ++ " ") ++ toString r.status ++
          (" " ++ (r.reason ++ " for url")) := by
      unfold statusErrorMsg
      simp [String.append_assoc]
    rw [hmsg]
    exact strContainsSub_append_mid _ _ _

/-- C1 witness: extract on 401 gets the credential message, get_job on 404
gets the generic one. -/
theorem claim_C1_witness :
    extract_respond (.response ⟨401, [], none, "Unauthorized"⟩) =
      .error (.skrapeAPIError "Invalid or missing API key")
    ∧ get_job_respond (.response ⟨404, [], none, "Not Found"⟩) =
      .error (.skrapeAPIError
        ("API request failed: " ++ statusErrorMsg 404 "Not Found")) :=
  ⟨(claim_C1 ⟨401, [], none, "Unauthorized"⟩ (by decide) (by decide)).1 rfl,
   (claim_C1 ⟨404, [], none, "Not Found"⟩ (by decide) (by decide)).2.2.2.2.2.2.1⟩

/-- C2: a normalized 2xx body that lacks the required JobResponse fields
makes model_validate raise pydantic.ValidationError, which the except clause
(httpx errors only) does not catch; the SDK class SkrapeValidationError,
promised by the extract docstring and errors.py, is never raised. -/
theorem claim_C2_failing :
    get_job_respond (.response
        ⟨200, [], some (.obj [("status", .str "ok")]), "OK"⟩) =
      .error (.pydanticValidationError "validation error for JobResponse")
    ∧ extract_respond (.response
        ⟨200, [], some (.obj [("status", .str "ok")]), "OK"⟩) =
      .error (.pydanticValidationError "validation error for JobResponse")
    ∧ PyError.isSkrapeValidationError
        (.pydanticValidationError "validation error for JobResponse") =
        false := ⟨rfl, rfl, rfl⟩

/-- C6 counterexample: a 2xx response whose body is not valid JSON raises the
JSON decode error unwrapped — not the SDK API error — because
json.JSONDecodeError is not an httpx.HTTPError. -/
theorem claim_C6_counterexample :
    markdown_respond (.response ⟨200, [], none, "OK"⟩) =
      .error (.jsonDecodeError "Expecting value: line 1 column 1 char 0")
    ∧ PyError.isSkrapeAPIError
        (.jsonDecodeError "Expecting value: line 1 column 1 char 0") =
        false := ⟨rfl, rfl⟩

/-- C6 amended: connection errors and timeouts are wrapped and re-raised by
every operation as an API error whose message includes the original error
text; a malformed (non-JSON) 2xx body instead escapes as the JSON decode
error, unwrapped. -/
theorem claim_C6 (m : String) (r : HttpResponse) (h2 : 200 ≤ r.status)
    (h3 : r.status < 300) (hbn : r.body = none) :
    (extract_respond (.connectError m) =
      .error (.skrapeAPIError ("API request failed: " ++ m))
    ∧ extract_respond (.timeoutError m) =
      .error (.skrapeAPIError ("API request failed: " ++ m))
    ∧ markdown_respond (.connectError m) =
      .error (.skrapeAPIError ("API request failed: " ++ m))
    ∧ markdown_respond (.timeoutError m) =
      .error (.skrapeAPIError ("API request failed: " ++ m))
    ∧ markdown_bulk_respond (.connectError m) =
      .error (.skrapeAPIError ("API request failed: " ++ m))
    ∧ markdown_bulk_respond (.timeoutError m) =
      .error (.skrapeAPIError ("API request failed: " ++ m))
    ∧ crawl_respond (.connectError m) =
      .error (.skrapeAPIError ("API request failed: " ++ m))
    ∧ crawl_respond (.timeoutError m) =
      .error (.skrapeAPIError ("API request failed: " ++ m))
    ∧ get_job_respond (.connectError m) =
      .error (.skrapeAPIError ("API request failed: " ++ m))
    ∧ get_job_respond (.timeoutError m) =
      .error (.skrapeAPIError ("API request failed: " ++ m)))
    ∧ markdown_respond (.response r) =
      .error (.jsonDecodeError "Expecting value: line 1 column 1 char 0")
    ∧ get_job_respond (.response r) =
      .error (.jsonDecodeError "Expecting value: line 1 column 1 char 0") := by
  have hr := handle_response_2xx_nobody h2 h3 hbn
  refine ⟨⟨rfl, rfl, rfl, rfl, rfl, rfl, rfl, rfl, rfl, rfl⟩, ?_, ?_⟩
  · rw [markdown_respond_error hr]
    rfl
  · rw [get_job_respond_error hr]
    rfl

/-- C6 witness: a concrete connection failure is wrapped, a concrete
malformed-body response is not. -/
theorem claim_C6_witness :
    extract_respond (.connectError "Connection refused") =
      .error (.skrapeAPIError ("API request failed: " ++ "Connection refused"))
    ∧ markdown_respond (.response ⟨204, [], none, "No Content"⟩) =
      .error (.jsonDecodeError "Expecting value: line 1 column 1 char 0") := by
  have h := claim_C6 "Connection refused" ⟨204, [], none, "No Content"⟩
    (by decide) (by decide) rfl
  exact ⟨h.1.1, h.2.1⟩

end SkrapeSDK
